import Mathlib

/-!
Verification development for the AI form builder backend, covering the two
core subsystems the specification describes: the response recovery parser
(`src/Backend/llm_parser.py`) and the session store
(`src/Backend/session_manager.py`), together with the orchestrator steps of
`src/Backend/app.py` that apply a parse result to a session.

Modelling conventions:
* Python JSON values are the inductive `Json`; `json.loads` is the strict
  recursive-descent parser `jsonParse` (fuel-based, executable).  Numbers are
  kept as their lexemes: no claim depends on numeric value semantics.
  Strings are Lean strings (the inputs of interest are ASCII; lone escaped
  surrogates, which Lean chars cannot carry, make the parse fail).
* Python dicts are association lists with unique keys in insertion order
  (`objInsert` overwrites in place, as dict assignment does).
* Python exceptions that `parse_llm_response` can leak to its caller are the
  type `PyExn`; fallible Python code is embedded in `Except PyExn`.
* Timestamps are abstract `Nat` instants (ISO strings compare like their
  instants); the ambient clock is passed explicitly as `now`.
-/

/-- Python JSON value as produced by `json.loads`: objects keep insertion
order with unique keys; a number keeps its source lexeme. -/
inductive Json where
  | null : Json
  | bool (b : Bool) : Json
  | num (lexeme : String) : Json
  | str (s : String) : Json
  | arr (elems : List Json) : Json
  | obj (members : List (String × Json)) : Json
deriving Repr

/-- Lookup in an association list (first match; object keys are unique). -/
def alistGet {α : Type} : List (String × α) → String → Option α
  | [], _ => none
  | (k, v) :: t, key => if k = key then some v else alistGet t key

/-- Dict insertion: overwrite an existing key in place, else append
(Python dict semantics, duplicate JSON keys resolved last-wins). -/
def objInsert : List (String × Json) → String → Json → List (String × Json)
  | [], key, v => [(key, v)]
  | (k, w) :: t, key, v =>
      if k = key then (k, v) :: t else (k, w) :: objInsert t key v

/-- Lookup of a key in a JSON value when it is an object, else `none`. -/
def jGet : Json → String → Option Json
  | .obj l, k => alistGet l k
  | _, _ => none

/-- Replace the value of a key of a JSON object (identity on non-objects;
only applied to objects in the embedded code). -/
def objSet : Json → String → Json → Json
  | .obj l, k, v => .obj (objInsert l k v)
  | v, _, _ => v

/-- JSON structural whitespace (Python json: space, tab, newline, return). -/
def isJsonWs (c : Char) : Bool :=
  c = ' ' ∨ c = '\t' ∨ c = '\n' ∨ c = '\r'

/-- Drop leading JSON whitespace. -/
def skipWs : List Char → List Char
  | [] => []
  | c :: t => if isJsonWs c then skipWs t else c :: t

/-- Value of a hex digit. -/
def hexVal (c : Char) : Option Nat :=
  if '0' ≤ c ∧ c ≤ '9' then some (c.toNat - '0'.toNat)
  else if 'a' ≤ c ∧ c ≤ 'f' then some (c.toNat - 'a'.toNat + 10)
  else if 'A' ≤ c ∧ c ≤ 'F' then some (c.toNat - 'A'.toNat + 10)
  else none

/-- Four hex digits of a \u escape. -/
def parseHex4 : List Char → Option (Nat × List Char)
  | a :: b :: c :: d :: t => do
      let va ← hexVal a
      let vb ← hexVal b
      let vc ← hexVal c
      let vd ← hexVal d
      pure (((va * 16 + vb) * 16 + vc) * 16 + vd, t)
  | _ => none

/-- Body of a JSON string literal after the opening quote, strict mode:
raw control characters are rejected, the escapes are those of the JSON
grammar. Surrogate pairs combine; a lone surrogate fails (Lean chars
cannot carry one; none of the inputs of interest contains one). -/
def parseStrBody (fuel : Nat) (cs : List Char) (acc : List Char) :
    Option (String × List Char) :=
  match fuel, cs with
  | 0, _ => none
  | _, [] => none
  | fuel + 1, c :: t =>
    if c = '"' then some (String.mk acc.reverse, t)
    else if c = '\\' then
      match t with
      | [] => none
      | e :: t2 =>
        if e = '"' then parseStrBody fuel t2 ('"' :: acc)
        else if e = '\\' then parseStrBody fuel t2 ('\\' :: acc)
        else if e = '/' then parseStrBody fuel t2 ('/' :: acc)
        else if e = 'b' then parseStrBody fuel t2 ('\x08' :: acc)
        else if e = 'f' then parseStrBody fuel t2 ('\x0C' :: acc)
        else if e = 'n' then parseStrBody fuel t2 ('\n' :: acc)
        else if e = 'r' then parseStrBody fuel t2 ('\r' :: acc)
        else if e = 't' then parseStrBody fuel t2 ('\t' :: acc)
        else if e = 'u' then
          match parseHex4 t2 with
          | none => none
          | some (n, t3) =>
            if 0xD800 ≤ n ∧ n < 0xDC00 then
              match t3 with
              | '\\' :: 'u' :: t4 =>
                match parseHex4 t4 with
                | some (m, t5) =>
                  if 0xDC00 ≤ m ∧ m < 0xE000 then
                    let cp := 0x10000 + (n - 0xD800) * 0x400 + (m - 0xDC00)
                    if h : cp.isValidChar then
                      parseStrBody fuel t5 (Char.ofNatAux cp h :: acc)
                    else none
                  else none
                | none => none
              | _ => none
            else if h : n.isValidChar then
              parseStrBody fuel t3 (Char.ofNatAux n h :: acc)
            else none
        else none
    else if c.toNat < 0x20 then none
    else parseStrBody fuel t (c :: acc)

/-- Decimal digit test. -/
def isDigitC (c : Char) : Bool := '0' ≤ c ∧ c ≤ '9'

/-- Longest digit run. -/
def spanDigits : List Char → List Char × List Char
  | [] => ([], [])
  | c :: t =>
      if isDigitC c then
        let (ds, rest) := spanDigits t
        (c :: ds, rest)
      else ([], c :: t)

/-- Integer part of a JSON number: 0, or a nonzero digit then digits. -/
def parseIntPart : List Char → Option (List Char × List Char)
  | [] => none
  | c :: t =>
      if c = '0' then some ([c], t)
      else if isDigitC c then
        let (ds, rest) := spanDigits t
        some (c :: ds, rest)
      else none

/-- Fraction part, if present. -/
def parseFracPart : List Char → List Char × List Char
  | '.' :: t =>
      match spanDigits t with
      | ([], _) => ([], '.' :: t)
      | (ds, rest) => ('.' :: ds, rest)
  | cs => ([], cs)

/-- Exponent part, if present. -/
def parseExpPart : List Char → List Char × List Char
  | e :: t =>
      if e = 'e' ∨ e = 'E' then
        match t with
        | s :: t2 =>
            if s = '+' ∨ s = '-' then
              match spanDigits t2 with
              | ([], _) => ([], e :: t)
              | (ds, rest) => (e :: s :: ds, rest)
            else
              match spanDigits t with
              | ([], _) => ([], e :: t)
              | (ds, rest) => (e :: ds, rest)
        | [] => ([], [e])
      else ([], e :: t)
  | [] => ([], [])

/-- JSON number lexeme (sign, integer, fraction, exponent). -/
def parseNumber (cs : List Char) : Option (String × List Char) :=
  let (sign, cs1) :=
    match cs with
    | '-' :: t => (['-'], t)
    | _ => (([] : List Char), cs)
  match parseIntPart cs1 with
  | none => none
  | some (ip, cs2) =>
    let (fp, cs3) := parseFracPart cs2
    let (ep, cs4) := parseExpPart cs3
    some (String.mk (sign ++ ip ++ fp ++ ep), cs4)

/-- Does the first list start with the second? -/
def listHasPrefix : List Char → List Char → Bool
  | [], _ => true
  | _ :: _, [] => false
  | p :: pt, c :: ct => p = c && listHasPrefix pt ct

mutual

/-- JSON value parser (after this many steps the input is exhausted: every
recursive call first consumes at least one character). -/
def parseVal (fuel : Nat) (cs : List Char) : Option (Json × List Char) :=
  match fuel with
  | 0 => none
  | fuel + 1 =>
    match skipWs cs with
    | [] => none
    | c :: t =>
      if c = '{' then parseObjBody fuel t
      else if c = '[' then parseArrBody fuel t
      else if c = '"' then
        match parseStrBody fuel t [] with
        | some (s, rest) => some (.str s, rest)
        | none => none
      else if listHasPrefix [ 't', 'r', 'u', 'e'] (c :: t) then
        some (.bool true, t.drop 3)
      else if listHasPrefix [ 'f', 'a', 'l', 's', 'e'] (c :: t) then
        some (.bool false, t.drop 4)
      else if listHasPrefix [ 'n', 'u', 'l', 'l'] (c :: t) then
        some (.null, t.drop 3)
      else if listHasPrefix [ 'N', 'a', 'N'] (c :: t) then
        some (.num "NaN", t.drop 2)
      else if listHasPrefix [ 'I', 'n', 'f', 'i', 'n', 'i', 't', 'y'] (c :: t) then
        some (.num "Infinity", t.drop 7)
      else if listHasPrefix [ '-', 'I', 'n', 'f', 'i', 'n', 'i', 't', 'y'] (c :: t) then
        some (.num "-Infinity", t.drop 8)
      else
        match parseNumber (c :: t) with
        | some (lex, rest) => some (.num lex, rest)
        | none => none

/-- Object members after the opening brace. -/
def parseObjBody (fuel : Nat) (cs : List Char) : Option (Json × List Char) :=
  match fuel with
  | 0 => none
  | fuel + 1 =>
    match skipWs cs with
    | [] => none
    | c :: t =>
      if c = '}' then some (.obj [], t)
      else parseMembers fuel (c :: t) []

/-- Comma-separated `"key": value` members, then the closing brace. -/
def parseMembers (fuel : Nat) (cs : List Char) (acc : List (String × Json)) :
    Option (Json × List Char) :=
  match fuel with
  | 0 => none
  | fuel + 1 =>
    match skipWs cs with
    | '"' :: t =>
      match parseStrBody fuel t [] with
      | none => none
      | some (key, rest) =>
        match skipWs rest with
        | ':' :: rest2 =>
          match parseVal fuel rest2 with
          | none => none
          | some (v, rest3) =>
            let acc2 := objInsert acc key v
            match skipWs rest3 with
            | ',' :: rest4 => parseMembers fuel rest4 acc2
            | '}' :: rest4 => some (.obj acc2, rest4)
            | _ => none
        | _ => none
    | _ => none

/-- Array elements after the opening bracket. -/
def parseArrBody (fuel : Nat) (cs : List Char) : Option (Json × List Char) :=
  match fuel with
  | 0 => none
  | fuel + 1 =>
    match skipWs cs with
    | [] => none
    | c :: t =>
      if c = ']' then some (.arr [], t)
      else parseElems fuel (c :: t) []

/-- Comma-separated array elements, then the closing bracket. -/
def parseElems (fuel : Nat) (cs : List Char) (acc : List Json) :
    Option (Json × List Char) :=
  match fuel with
  | 0 => none
  | fuel + 1 =>
    match parseVal fuel cs with
    | none => none
    | some (v, rest) =>
      match skipWs rest with
      | ',' :: rest2 => parseElems fuel rest2 (acc ++ [v])
      | ']' :: rest2 => some (.arr (acc ++ [v]), rest2)
      | _ => none

end

/-- Strict decode of a whole document: `json.loads` succeeds exactly when the
text is one JSON value with only whitespace around it. -/
def jsonParse (s : String) : Option Json :=
  match parseVal (2 * s.length + 8) s.data with
  | some (v, rest) => if (skipWs rest).isEmpty then some v else none
  | none => none

/-- Python exceptions that the embedded code can raise past a caller. -/
inductive PyExn where
  | valueError (msg : String) : PyExn
  | attributeError : PyExn
  | typeError : PyExn
  | keyError (k : String) : PyExn
deriving Repr

/-- Python truthiness of a zero number lexeme (all mantissa digits 0). -/
def numIsZero (lex : String) : Bool :=
  let m := (lex.data.dropWhile (fun c => c = '-')).takeWhile
    (fun c => c ≠ 'e' ∧ c ≠ 'E')
  m.all (fun c => c = '0' ∨ c = '.') && m.any (fun c => c = '0')

/-- Python falsiness of a JSON value: None, False, zero, and the empty
string, list and dict are falsy. -/
def isFalsy : Json → Bool
  | .null => true
  | .bool b => !b
  | .num lex => numIsZero lex
  | .str s => s = ""
  | .arr l => l.isEmpty
  | .obj l => l.isEmpty

/-- Python falsiness of an optional value (absent ~ None, falsy). -/
def isFalsyOpt : Option Json → Bool
  | none => true
  | some v => isFalsy v

/-- Python `d.get(k)`: requires a dict (else AttributeError), yields the
value or None. -/
def pyDictGet (v : Json) (k : String) : Except PyExn (Option Json) :=
  match v with
  | .obj l => .ok (alistGet l k)
  | _ => .error .attributeError

/-- Python `d[k]` with a string key: dict lookup (KeyError when absent);
a string or list subscript with a string key is a TypeError. -/
def pySubscr (v : Json) (k : String) : Except PyExn Json :=
  match v with
  | .obj l =>
    match alistGet l k with
    | some x => .ok x
    | none => .error (.keyError k)
  | _ => .error .typeError

/-- Does the first string occur in the second (Python substring `in`)? -/
def listHasSub (needle : List Char) (hay : List Char) : Bool :=
  if listHasPrefix needle hay then true
  else
    match hay with
    | [] => false
    | _ :: t => listHasSub needle t

/-- Python `needle in hay` for strings. -/
def pyInStr (hay needle : String) : Bool := listHasSub needle.data hay.data

/-- Python `k in v`: key membership for a dict, substring for a string,
element equality for a list (only string elements can equal `k`); other
values are not containers (TypeError). -/
def pyContains (v : Json) (k : String) : Except PyExn Bool :=
  match v with
  | .obj l => .ok (alistGet l k).isSome
  | .str s => .ok (pyInStr s k)
  | .arr xs => .ok (xs.any (fun x => match x with | .str t => t = k | _ => false))
  | _ => .error .typeError

/-- Python `len(v)` for sized values (TypeError otherwise). -/
def pyLen (v : Json) : Except PyExn Nat :=
  match v with
  | .str s => .ok s.length
  | .arr l => .ok l.length
  | .obj l => .ok l.length
  | _ => .error .typeError

/-- Python `str.rstrip()` whitespace (the ASCII whitespace characters; the
inputs of interest are ASCII). -/
def isPyWs (c : Char) : Bool :=
  c = ' ' ∨ c = '\t' ∨ c = '\n' ∨ c = '\r' ∨ c = '\x0B' ∨ c = '\x0C'

/-- Python `s.rstrip()`. -/
def pyRstrip (s : String) : String :=
  String.mk (((s.data.reverse).dropWhile isPyWs).reverse)

/-- Python `s.endswith(t)`. -/
def pyEndsWith (s t : String) : Bool :=
  listHasPrefix t.data.reverse s.data.reverse

/-- Python `s[:-1]`. -/
def pyDropLast (s : String) : String :=
  String.mk (s.data.take (s.data.length - 1))

/-- Python `s[:n]`. -/
def pyTake (s : String) (n : Nat) : String := String.mk (s.data.take n)

/-- Highest index at which the needle occurs, scanning with the running
index `i` for the head of `hay` (helper for Python `rfind`). -/
def rfindGo (needle : List Char) (hay : List Char) (i : Nat) : Option Nat :=
  let here := if listHasPrefix needle hay then some i else none
  match hay with
  | [] => here
  | _ :: t =>
    match rfindGo needle t (i + 1) with
    | some j => some j
    | none => here

/-- Python `hay.rfind(needle)` (as an option; Python returns -1 on absence). -/
def pyRfind (hay needle : String) : Option Nat := rfindGo needle.data hay.data 0

/-- Count of a character in a string (Python `s.count(c)`). -/
def charCount (s : String) (c : Char) : Nat := s.data.count c

/-- Embeds `repair_truncated_json` (llm_parser.py lines 12-73): when the
brace and bracket counts are balanced the input is returned unchanged;
otherwise trailing whitespace is stripped, one trailing comma dropped, an
odd double-quote count resolved (truncate back to the last complete quote
comma pair when its index is positive, else append a quote), and then the
two closing loops append a bracket, resp. a brace, once per unit of the
absolute count difference exactly when that difference is negative. -/
def repair_truncated_json (json_str : String) : String :=
  let open_braces := charCount json_str '{'
  let close_braces := charCount json_str '}'
  let open_brackets := charCount json_str '['
  let close_brackets := charCount json_str ']'
  if open_braces = close_braces ∧ open_brackets = close_brackets then json_str
  else
    let r1 := pyRstrip json_str
    let r2 := if pyEndsWith r1 "," then pyDropLast r1 else r1
    let r3 :=
      if charCount r2 '"' % 2 ≠ 0 then
        match pyRfind r2 "\"," with
        | some i => if 0 < i then pyTake r2 (i + 2) else r2 ++ "\""
        | none => r2 ++ "\""
      else r2
    let missing_brackets : Int := (close_brackets : Int) - (open_brackets : Int)
    let missing_braces : Int := (close_braces : Int) - (open_braces : Int)
    let r4 :=
      if missing_brackets < 0 then
        r3 ++ String.mk (List.replicate missing_brackets.natAbs ']')
      else r3
    if missing_braces < 0 then
      r4 ++ String.mk (List.replicate missing_braces.natAbs '}')
    else r4

/-- Python `s.lower()` (ASCII case folding; the indicator literals and the
inputs of interest are ASCII). -/
def pyLower (s : String) : String := String.mk (s.data.map Char.toLower)

/-- Form indicators of `is_final_form` (llm_parser.py lines 378-385). -/
def formIndicators : List String :=
  [ "\"fields\"", "\"field_type\"", "\"form_title\"",
    "form specification", "complete form", "final form"]

/-- Question indicators of `is_final_form` (llm_parser.py lines 387-393). -/
def questionIndicators : List String :=
  [ "?", "clarifying question", "need to know", "please specify",
    "would you like"]

/-- Number of form indicators present (lowercased text). -/
def form_score (s : String) : Nat :=
  formIndicators.countP (fun ind => pyInStr (pyLower s) ind)

/-- Number of question indicators present (lowercased text). -/
def question_score (s : String) : Nat :=
  questionIndicators.countP (fun ind => pyInStr (pyLower s) ind)

/-- Embeds `is_final_form` (llm_parser.py lines 360-399): explicit mode
markers first, then indicator scoring. -/
def is_final_form (s : String) : Bool :=
  if pyInStr s "\"mode\"" && pyInStr s "\"final_form\"" then true
  else if pyInStr s "\"mode\"" && pyInStr s "\"questions\"" then false
  else decide (question_score s + 2 < form_score s)

/-- Try a matcher at every start position, leftmost first (operational
semantics of `re.search` for the patterns below, whose greedy character
classes exclude their closing delimiter, so no backtracking arises). -/
def searchA {α : Type} (m : List Char → Option α) : List Char → Option α
  | [] => m []
  | c :: t =>
    match m (c :: t) with
    | some r => some r
    | none => searchA m (t)

/-- Match a literal at the current position. -/
def matchLit (lit : List Char) (cs : List Char) : Option (List Char) :=
  if listHasPrefix lit cs then some (cs.drop lit.length) else none

/-- Match a quoted run: one double quote, one or more non-quote characters
(captured), one double quote. -/
def matchQuoted1 (cs : List Char) : Option (String × List Char) :=
  match cs with
  | '"' :: t =>
    let content := t.takeWhile (fun c => c ≠ '"')
    if content.isEmpty then none
    else
      match t.drop content.length with
      | '"' :: rest => some (String.mk content, rest)
      | _ => none
  | _ => none

/-- Match a quoted key, optional whitespace, a colon, optional whitespace,
then a quoted run (the shared shape of the extraction patterns). -/
def matchKeyQuoted (key : String) (cs : List Char) : Option (String × List Char) :=
  match matchLit ("\"" ++ key ++ "\"").data cs with
  | none => none
  | some cs1 =>
    match cs1.dropWhile isPyWs with
    | ':' :: cs2 => matchQuoted1 (cs2.dropWhile isPyWs)
    | _ => none

/-- Lazy scan for the form-object pattern: the shortest content whose
closing brace is followed (over whitespace) by another closing brace.
Returns the group content including its final brace. -/
def lazyFormClose (fuel : Nat) (acc : List Char) (cs : List Char) :
    Option (List Char) :=
  match fuel with
  | 0 => none
  | fuel + 1 =>
    match cs with
    | [] => none
    | c :: t =>
      if c = '}' then
        match t.dropWhile isPyWs with
        | '}' :: _ => some (acc.reverse ++ [ '}'])
        | _ => lazyFormClose fuel (c :: acc) t
      else lazyFormClose fuel (c :: acc) t

/-- Match the form-object pattern at the current position; yields the
captured group (an object-shaped slice of the text). -/
def matchFormObj (cs : List Char) : Option String :=
  match matchLit "\"form\"".data cs with
  | none => none
  | some cs1 =>
    match cs1.dropWhile isPyWs with
    | ':' :: cs2 =>
      match cs2.dropWhile isPyWs with
      | '{' :: cs3 =>
        match lazyFormClose (cs3.length + 1) [] cs3 with
        | some inner => some (String.mk ('{' :: inner))
        | none => none
      | _ => none
    | _ => none

/-- Match the options-array pattern inside a field tail: quoted key
options, colon, a bracketed non-empty run without a closing bracket. -/
def matchOptionsArr (cs : List Char) : Option String :=
  match matchLit "\"options\"".data cs with
  | none => none
  | some cs1 =>
    match cs1.dropWhile isPyWs with
    | ':' :: cs2 =>
      match cs2.dropWhile isPyWs with
      | '[' :: cs3 =>
        let content := cs3.takeWhile (fun c => c ≠ ']')
        if content.isEmpty then none
        else
          match cs3.drop content.length with
          | ']' :: _ => some (String.mk content)
          | _ => none
      | _ => none
    | _ => none

/-- All quoted runs of a text (operational `re.findall` of the quoted-run
pattern, non-overlapping, left to right). -/
def qFindall (fuel : Nat) (cs : List Char) : List String :=
  match fuel with
  | 0 => []
  | fuel + 1 =>
    match searchA matchQuoted1 cs with
    | some (s, rest) => s :: qFindall fuel rest
    | none => []

/-- Build one recovered field object (llm_parser.py lines 319-340):
id, type, label, required defaulting to true, and an options array pulled
from the field tail when present (strict decode first, quoted-run fallback). -/
def buildField (idv tyv lbv tail : String) : Json :=
  let base := [("id", Json.str idv), ("type", Json.str tyv),
    ("label", Json.str lbv), ("required", Json.bool true)]
  match searchA matchOptionsArr tail.data with
  | none => .obj base
  | some content =>
    match jsonParse ("[" ++ content ++ "]") with
    | some opts => .obj (base ++ [("options", opts)])
    | none =>
      let strs := qFindall (content.length + 1) content.data
      if strs.isEmpty then .obj base
      else .obj (base ++ [("options", Json.arr (strs.map Json.str))])

/-- Match one field-shaped object at the current position (the field
pattern of llm_parser.py line 311): brace, id, type and label key-value
pairs in that order, then a tail without braces and the closing brace. -/
def matchField (cs : List Char) : Option (Json × List Char) :=
  match cs with
  | '{' :: t =>
    match matchKeyQuoted "id" (t.dropWhile isPyWs) with
    | none => none
    | some (idv, r1) =>
      match r1.dropWhile isPyWs with
      | ',' :: r2 =>
        match matchKeyQuoted "type" (r2.dropWhile isPyWs) with
        | none => none
        | some (tyv, r3) =>
          match r3.dropWhile isPyWs with
          | ',' :: r4 =>
            match matchKeyQuoted "label" (r4.dropWhile isPyWs) with
            | none => none
            | some (lbv, r5) =>
              let tail := r5.takeWhile (fun c => c ≠ '}')
              match r5.drop tail.length with
              | '}' :: r6 => some (buildField idv tyv lbv (String.mk tail), r6)
              | _ => none
          | _ => none
      | _ => none
  | _ => none

/-- All field matches, non-overlapping, left to right (`re.finditer`). -/
def findFields (fuel : Nat) (cs : List Char) : List Json :=
  match fuel with
  | 0 => []
  | fuel + 1 =>
    match searchA matchField cs with
    | some (fld, rest) => fld :: findFields fuel rest
    | none => []

/-- Embeds `extract_form_schema` (llm_parser.py lines 256-357): first the
form-object regex plus strict decode, then a strict decode of the whole
text, then partial regex extraction of title, description and fields, and
finally the fallback structure carrying a bounded raw prefix. -/
def extract_form_schema (s : String) : Json :=
  let tryA : Option Json :=
    match searchA matchFormObj s.data with
    | some group1 => jsonParse (group1 ++ "\x7d")
    | none => none
  match tryA with
  | some v => v
  | none =>
    let tryB : Option Json :=
      match jsonParse s with
      | some (.obj l) =>
        match alistGet l "form" with
        | some f => some f
        | none =>
          if (alistGet l "title").isSome ∧ (alistGet l "fields").isSome then
            some (.obj l)
          else none
      | _ => none
    match tryB with
    | some v => v
    | none =>
      let title :=
        match searchA (matchKeyQuoted "title") s.data with
        | some (t, _) => t
        | none => "Generated Form"
      let description :=
        match searchA (matchKeyQuoted "description") s.data with
        | some (d, _) => d
        | none => "Form generated by AI"
      let fields := findFields (s.length + 1) s.data
      if fields.isEmpty then
        .obj [("title", Json.str "Generated Form"),
          ("description", Json.str "Form generated by AI"),
          ("fields", Json.arr []),
          ("raw_response", Json.str (pyTake s 1000))]
      else
        .obj [("title", Json.str title),
          ("description", Json.str description),
          ("fields", Json.arr fields)]

/-- Outcome of `parse_llm_response` as its caller observes it: a returned
JSON value, or a Python exception leaking out. -/
inductive POut where
  | ret (v : Json) : POut
  | exn (e : PyExn) : POut
deriving Repr

/-- Equality of an optional JSON value with a string literal (Python `==`
against a string is false for every non-string value and for None). -/
def jsonIsStr (o : Option Json) (t : String) : Bool :=
  match o with
  | some (.str u) => u = t
  | _ => false

/-- Question branch of Stage 1 (llm_parser.py lines 104-123): require a
truthy nested question, the keys id, label, type via Python membership,
and for radio or checkbox a non-empty options list; each failure raises
ValueError (which the surrounding try only catches for JSONDecodeError). -/
def questionBranch (parsed : Json) : Except PyExn Json :=
  match pyDictGet parsed "question" with
  | .error e => .error e
  | .ok q? =>
    let question := q?.getD Json.null
    if isFalsy question then .error (.valueError "Missing question in response")
    else
      match pyContains question "id" with
      | .error e => .error e
      | .ok hasId =>
        if !hasId then .error (.valueError "Missing id in question")
        else
          match pyContains question "label" with
          | .error e => .error e
          | .ok hasLabel =>
            if !hasLabel then .error (.valueError "Missing label in question")
            else
              match pyContains question "type" with
              | .error e => .error e
              | .ok hasType =>
                if !hasType then .error (.valueError "Missing type in question")
                else
                  match pySubscr question "type" with
                  | .error e => .error e
                  | .ok tv =>
                    if jsonIsStr (some tv) "radio" || jsonIsStr (some tv) "checkbox" then
                      let tstr := match tv with | .str t => t | _ => ""
                      match pyDictGet question "options" with
                      | .error e => .error e
                      | .ok opts? =>
                        if isFalsyOpt opts? then
                          .error (.valueError (tstr ++ " must have options"))
                        else
                          match pySubscr question "options" with
                          | .error e => .error e
                          | .ok ov =>
                            match ov with
                            | .arr l =>
                              if l.length = 0 then
                                .error (.valueError
                                  (tstr ++ " must have non-empty options list"))
                              else .ok parsed
                            | _ =>
                              .error (.valueError
                                (tstr ++ " must have non-empty options list"))
                    else .ok parsed

/-- Form-schema branch of Stage 1 (llm_parser.py lines 125-129): require a
truthy nested form, else raise ValueError. -/
def formSchemaBranch (parsed : Json) : Except PyExn Json :=
  match pyDictGet parsed "form" with
  | .error e => .error e
  | .ok form? =>
    if isFalsyOpt form? then .error (.valueError "Missing form in response")
    else .ok parsed

/-- Legacy-alias branch of Stage 1 (llm_parser.py lines 131-138): rewrite
the legacy mode names in place and return the parsed object unchanged
otherwise; no further validation is applied on this path. -/
def legacyBranch (parsed : Json) (mode : Option Json) : Except PyExn Json :=
  match mode with
  | some m =>
    if jsonIsStr (some m) "questions" then
      .ok (objSet parsed "mode" (Json.str "question"))
    else if jsonIsStr (some m) "final_form" then
      .ok (objSet parsed "mode" (Json.str "form_schema"))
    else .ok parsed
  | none => .ok parsed

/-- Stage 1 mode dispatch after a successful strict decode. -/
def stage1Branch (parsed : Json) : Except PyExn Json :=
  match pyDictGet parsed "mode" with
  | .error e => .error e
  | .ok mode =>
    if jsonIsStr mode "question" then questionBranch parsed
    else if jsonIsStr mode "form_schema" then formSchemaBranch parsed
    else legacyBranch parsed mode

/-- Acceptance after a successful decode of the repaired text
(llm_parser.py lines 148-161); the logging line touches
`parsed['form'].get('fields', [])` and its length, which can raise. -/
def stage2Accept (parsed : Json) : Except PyExn Json :=
  match pyDictGet parsed "mode" with
  | .error e => .error e
  | .ok mode =>
    if jsonIsStr mode "form_schema" then
      match pyDictGet parsed "form" with
      | .error e => .error e
      | .ok form? =>
        if isFalsyOpt form? then .ok parsed
        else
          match pySubscr parsed "form" with
          | .error e => .error e
          | .ok form =>
            match pyDictGet form "fields" with
            | .error e => .error e
            | .ok fv? =>
              match pyLen (fv?.getD (Json.arr [])) with
              | .error e => .error e
              | .ok _ => .ok parsed
    else if jsonIsStr mode "question" then
      match pyDictGet parsed "question" with
      | .error e => .error e
      | .ok q? => if isFalsyOpt q? then .ok parsed else .ok parsed
    else .ok parsed

/-- Diagnostic suffix of the terminal error message, Python `str(e)` of the
initial JSONDecodeError. The spec fixes that this text is diagnostic only
and never structurally parsed downstream, so its exact content is not
modelled. -/
def decodeErrDetail (_s : String) : String := ""

/-- Terminal error result of the pipeline (llm_parser.py lines 177-180). -/
def errorResult (s : String) : Json :=
  .obj [("mode", Json.str "error"),
    ("error", Json.str
      ("Failed to parse LLM response. The form may be too large. " ++
       "Try requesting fewer questions (e.g., 30 instead of 50). Error: " ++
       decodeErrDetail s))]

/-- Stage 3 check (llm_parser.py lines 166-180): only when `is_final_form`
holds is regex extraction attempted, and the extracted schema is accepted
only when truthy with a truthy fields entry; otherwise the tagged error
result is returned. -/
def stage3Check (s : String) : Except PyExn Json :=
  if is_final_form s then
    let fs := extract_form_schema s
    if isFalsy fs then .ok (errorResult s)
    else
      match pyDictGet fs "fields" with
      | .error e => .error e
      | .ok fv? =>
        if isFalsyOpt fv? then .ok (errorResult s)
        else .ok (.obj [("mode", Json.str "form_schema"), ("form", fs)])
  else .ok (errorResult s)

/-- Collapse the embedded Python computation to the observable outcome. -/
def runPy (m : Except PyExn Json) : POut :=
  match m with
  | .ok v => .ret v
  | .error e => .exn e

/-- Markdown-fence test of llm_parser.py line 92. The fence-extraction
branch (lines 93-98) is the identity when this is false; the embedding
below covers exactly the fence-free inputs, and every theorem about it
carries this as a hypothesis. -/
def hasFence (s : String) : Bool := pyInStr s "```json" || pyInStr s "```"

/-- Embeds `parse_llm_response` (llm_parser.py lines 76-180) on fence-free
input: Stage 1 strict decode and mode dispatch; on a decode error Stage 2
bracket repair and re-decode; then Stage 3 regex extraction gated by
`is_final_form`; finally the tagged error result. Failures raised inside
Stage 1 are ValueError or AttributeError, which the surrounding except
clause (JSONDecodeError only) does not catch. -/
def parse_llm_response (s : String) : POut :=
  match jsonParse s with
  | some parsed => runPy (stage1Branch parsed)
  | none =>
    match jsonParse (repair_truncated_json s) with
    | some parsed => runPy (stage2Accept parsed)
    | none => runPy (stage3Check s)

/-- Field loop of `validate_form_schema` (llm_parser.py lines 456-467):
first failure wins, the index is reported in the message. -/
def validateFields : List Json → Nat → Bool × Option String
  | [], _ => (true, none)
  | f :: rest, i =>
    match f with
    | .obj fl =>
      if (alistGet fl "id").isNone then
        (false, some ("Field " ++ toString i ++ " missing 'id'"))
      else if (alistGet fl "type").isNone then
        (false, some ("Field " ++ toString i ++ " missing 'type'"))
      else if (alistGet fl "label").isNone then
        (false, some ("Field " ++ toString i ++ " missing 'label'"))
      else validateFields rest (i + 1)
    | _ => (false, some ("Field " ++ toString i ++ " must be a dictionary"))

/-- Embeds `validate_form_schema` (llm_parser.py lines 433-469): mapping
check, title presence, fields presence and list shape, then the field
loop; pure, first failure wins. -/
def validate_form_schema (v : Json) : Bool × Option String :=
  match v with
  | .obj l =>
    if (alistGet l "title").isNone then
      (false, some "Form schema missing 'title' field")
    else
      match alistGet l "fields" with
      | none => (false, some "Form schema missing 'fields' array")
      | some fv =>
        match fv with
        | .arr fields => validateFields fields 0
        | _ => (false, some "'fields' must be an array")
  | _ => (false, some "Form schema must be a dictionary")

/-- Session stages of `SessionStage` (session_manager.py lines 13-18): the
enumeration holds INITIALIZED, QUESTION, FORM_SCHEMA and COMPLETED; the
members QUESTIONS and FINAL_FORM were renamed away and no longer exist. -/
inductive SessionStage where
  | initialized : SessionStage
  | question : SessionStage
  | form_schema : SessionStage
  | completed : SessionStage
deriving Repr, DecidableEq

/-- Attribute lookup on the `SessionStage` class: accessing an absent
member raises AttributeError (modelled as `none`). -/
def stageMember (name : String) : Option SessionStage :=
  if name = "INITIALIZED" then some .initialized
  else if name = "QUESTION" then some .question
  else if name = "FORM_SCHEMA" then some .form_schema
  else if name = "COMPLETED" then some .completed
  else none

/-- One Q and A round (session_manager.py lines 21-26). -/
structure AnswerRound where
  round_number : Nat
  question_ids : List String
  timestamp : Nat
deriving Repr, DecidableEq

/-- Session record of `FormSession` (session_manager.py lines 29-53).
`generated_bg` is the attribute app.py adds dynamically (absent reads as
None via getattr). Timestamps are abstract instants. -/
structure FormSession where
  session_id : String
  form_type : String
  initial_prompt : String
  conversation_history : List (String × String × Nat) := []
  current_stage : SessionStage := .initialized
  current_question : Option Json := none
  question_count : Nat := 0
  answers : List (String × Json) := []
  form_id : Option String := none
  generated_bg : Option String := none
  selected_answers : List AnswerRound := []
  current_questions : List Json := []
  final_form : Option Json := none
  created_at : Nat := 0
  updated_at : Nat := 0
  expires_at : Nat := 0
deriving Repr

/-- Session creation (session_manager.py lines 125-134 with the dataclass
defaults of lines 35-53): fresh history, Initialized stage, expiry fixed
at creation time plus the 24 hour delta (one abstract unit per hour). -/
def mkFormSession (sid ftype prompt : String) (now : Nat) : FormSession :=
  { session_id := sid, form_type := ftype, initial_prompt := prompt,
    created_at := now, updated_at := now, expires_at := now + 24 }

/-- Embeds `FormSession.update_timestamp` (session_manager.py lines 62-64). -/
def FormSession.update_timestamp (s : FormSession) (now : Nat) : FormSession :=
  { s with updated_at := now }

/-- Embeds `FormSession.is_expired` (session_manager.py lines 66-69):
strictly after the stored expiry instant. -/
def FormSession.is_expired (s : FormSession) (now : Nat) : Bool :=
  decide (s.expires_at < now)

/-- Embeds `FormSession.set_questions` (session_manager.py lines 89-93):
the assignment to `current_questions` executes, then the reference to the
absent enum member QUESTIONS raises AttributeError, so the stage update
and the timestamp update are never reached. -/
def FormSession.set_questions (s : FormSession) (qs : List Json) (now : Nat) :
    FormSession × Option PyExn :=
  let s1 := { s with current_questions := qs }
  match stageMember "QUESTIONS" with
  | none => (s1, some .attributeError)
  | some st => ((({ s1 with current_stage := st }).update_timestamp now), none)

/-- Embeds `FormSession.set_final_form` (session_manager.py lines 95-99):
the assignment to `final_form` executes, then the reference to the absent
enum member FINAL_FORM raises AttributeError. -/
def FormSession.set_final_form (s : FormSession) (fs : Json) (now : Nat) :
    FormSession × Option PyExn :=
  let s1 := { s with final_form := some fs }
  match stageMember "FINAL_FORM" with
  | none => (s1, some .attributeError)
  | some st => ((({ s1 with current_stage := st }).update_timestamp now), none)

/-- The session store: the dict of sessions keyed by id (unique keys in
insertion order, as in session_manager.py line 106). -/
structure SessionManager where
  sessions : List (String × FormSession)
deriving Repr

/-- Removal of a key (Python `del`; keys are unique, so the filter drops
exactly the one entry). -/
def delKey {α : Type} (l : List (String × α)) (k : String) :
    List (String × α) :=
  l.filter (fun p => !(p.1 = k))

/-- Dict update at a key (replace in place or append). -/
def putKey {α : Type} : List (String × α) → String → α → List (String × α)
  | [], k, v => [(k, v)]
  | (k0, v0) :: t, k, v =>
    if k0 = k then (k0, v) :: t else (k0, v0) :: putKey t k v

/-- Embeds `SessionManager.get_session` (session_manager.py lines 137-154):
lookup, then lazy expiry — an expired entry is deleted and reported
absent; the call never raises. Returns the result and the store after the
access. -/
def SessionManager.get_session (m : SessionManager) (sid : String) (now : Nat) :
    Option FormSession × SessionManager :=
  match alistGet m.sessions sid with
  | none => (none, m)
  | some s =>
    if s.is_expired now then (none, ⟨delKey m.sessions sid⟩)
    else (some s, m)

/-- Embeds `SessionManager.update_session` (session_manager.py lines
156-164): refresh the timestamp and store under the session id. -/
def SessionManager.update_session (m : SessionManager) (s : FormSession)
    (now : Nat) : SessionManager :=
  ⟨putKey m.sessions s.session_id (s.update_timestamp now)⟩

/-- Embeds `SessionManager.get_session_count` (session_manager.py lines
190-192): the raw size of the dict, with no expiry filtering. -/
def SessionManager.get_session_count (m : SessionManager) : Nat :=
  m.sessions.length

/-- Embeds `SessionManager.get_all_sessions` (session_manager.py lines
194-196): all stored sessions, with no expiry filtering. -/
def SessionManager.get_all_sessions (m : SessionManager) : List FormSession :=
  m.sessions.map Prod.snd

/-- Response a handler returns after applying a parse result
(app.py SessionResponse, restricted to the fields the claims mention). -/
inductive RespOut where
  | errorResp (msg : String) : RespOut
  | formResp (form : Json) (form_id : String) : RespOut
deriving Repr

/-- Falsiness of the tracked form id (`if not session.form_id`). -/
def formIdFalsy : Option String → Bool
  | none => true
  | some s => s = ""

/-- Truthiness of the generated background (`if generated_bg`). -/
def bgTruthy : Option String → Bool
  | none => false
  | some s => !(s = "")

/-- Outcome of applying a form_schema parse result to a session: the
mutated session, the payload handed to the persistence collaborator when
it was invoked (None otherwise), and the handler response. -/
structure ApplyResult where
  session : FormSession
  savedPayload : Option Json
  response : RespOut
deriving Repr

/-- Embeds the form_schema branch of `submit_answer` (app.py lines
688-745; `init_form_creation` lines 550-604 are the same shape): validate
first and answer with an error response on rejection; otherwise persist
only when `form_id` is not yet set, recording the returned id, then set
`final_form` and the FORM_SCHEMA stage and store the session.
`newId` and `newBg` stand for the values the external save collaborator
returns; `current_question` is not touched on this path. -/
def applyFormSchema (sess : FormSession) (form : Json) (newId : String)
    (newBg : Option String) (now : Nat) : ApplyResult :=
  let vres := validate_form_schema form
  if !vres.1 then
    { session := sess, savedPayload := none,
      response := .errorResp ("Form validation failed: " ++ vres.2.getD "None") }
  else
    if formIdFalsy sess.form_id then
      let payload :=
        match alistGet sess.answers "bg_preference" with
        | some bv => if isFalsy bv then form else objSet form "bg_preference" bv
        | none => form
      let sess1 := { sess with form_id := some newId, generated_bg := newBg }
      let sess2 := { sess1 with
        final_form := some form,
        current_stage := .form_schema, updated_at := now }
      let response_form :=
        if bgTruthy newBg then
          objSet form "backgroundImage" (Json.str (newBg.getD ""))
        else form
      { session := sess2, savedPayload := some payload,
        response := .formResp response_form newId }
    else
      let fid := sess.form_id.getD ""
      let sess2 := { sess with
        final_form := some form,
        current_stage := .form_schema, updated_at := now }
      let response_form :=
        if bgTruthy sess.generated_bg then
          objSet form "backgroundImage" (Json.str (sess.generated_bg.getD ""))
        else form
      { session := sess2, savedPayload := none,
        response := .formResp response_form fid }

/-- Embeds the question branch of `submit_answer` (app.py lines 675-679):
store the question, bump the count, enter the QUESTION stage. -/
def applyQuestion (sess : FormSession) (q : Json) (now : Nat) : FormSession :=
  { sess with
    current_question := some q,
    question_count := sess.question_count + 1,
    current_stage := .question, updated_at := now }

/-- Options check of the question branch condensed to one predicate on the
question members: absent, falsy, non-list or empty options are bad. -/
def badOptions (ql : List (String × Json)) : Bool :=
  match alistGet ql "options" with
  | none => true
  | some o =>
    if isFalsy o then true
    else
      match o with
      | .arr l => l.isEmpty
      | _ => true

/-- Legacy-alias rewriting of the mode value, as the Stage 1 fallback
branch performs it (rename only, nothing validated). -/
def legacyRewrite (v : Json) : Json :=
  if jsonIsStr (jGet v "mode") "questions" then
    objSet v "mode" (Json.str "question")
  else if jsonIsStr (jGet v "mode") "final_form" then
    objSet v "mode" (Json.str "form_schema")
  else v

/-- Mode string of a returned parse outcome, when there is one. -/
def resultMode (o : POut) : Option String :=
  match o with
  | .ret v =>
    match jGet v "mode" with
    | some (.str m) => some m
    | _ => none
  | .exn _ => none

/-- Claim C6 as frozen, formalised word for word: on an odd double-quote
count, truncate back to the last complete quote-comma pair whenever one
occurs (at any index), else append one closing quote; then append exactly
the deficit of closing brackets and then of closing braces. -/
def repairClaimC6 (s : String) : String :=
  let open_braces := charCount s '{'
  let close_braces := charCount s '}'
  let open_brackets := charCount s '['
  let close_brackets := charCount s ']'
  if open_braces = close_braces ∧ open_brackets = close_brackets then s
  else
    let r1 := pyRstrip s
    let r2 := if pyEndsWith r1 "," then pyDropLast r1 else r1
    let r3 :=
      if charCount r2 '"' % 2 ≠ 0 then
        match pyRfind r2 "\"," with
        | some i => pyTake r2 (i + 2)
        | none => r2 ++ "\""
      else r2
    (r3 ++ String.mk (List.replicate (open_brackets - close_brackets) ']'))
      ++ String.mk (List.replicate (open_braces - close_braces) '}')

/-- Claim C6 amended: identical to the frozen claim except that the
truncation to the last quote-comma pair applies only when that pair starts
at a strictly positive index (a pair at index zero is treated like an
absent pair and a closing quote is appended instead). -/
def repairAmendedC6 (s : String) : String :=
  let open_braces := charCount s '{'
  let close_braces := charCount s '}'
  let open_brackets := charCount s '['
  let close_brackets := charCount s ']'
  if open_braces = close_braces ∧ open_brackets = close_brackets then s
  else
    let r1 := pyRstrip s
    let r2 := if pyEndsWith r1 "," then pyDropLast r1 else r1
    let r3 :=
      if charCount r2 '"' % 2 ≠ 0 then
        match pyRfind r2 "\"," with
        | some i => if 0 < i then pyTake r2 (i + 2) else r2 ++ "\""
        | none => r2 ++ "\""
      else r2
    (r3 ++ String.mk (List.replicate (open_brackets - close_brackets) ']'))
      ++ String.mk (List.replicate (open_braces - close_braces) '}')

/-- First validation failure over the field list, per claim C8: for each
field in index order, mapping check, then id, type, label presence. -/
def fieldFirstFailure : List Json → Nat → Option String
  | [], _ => none
  | f :: rest, i =>
    match f with
    | .obj fl =>
      if (alistGet fl "id").isNone then
        some ("Field " ++ toString i ++ " missing 'id'")
      else if (alistGet fl "type").isNone then
        some ("Field " ++ toString i ++ " missing 'type'")
      else if (alistGet fl "label").isNone then
        some ("Field " ++ toString i ++ " missing 'label'")
      else fieldFirstFailure rest (i + 1)
    | _ => some ("Field " ++ toString i ++ " must be a dictionary")

/-- First validation failure of a candidate schema, per claim C8: mapping,
then title, then fields presence and list shape, then the field loop. -/
def firstFailureC8 (v : Json) : Option String :=
  match v with
  | .obj l =>
    if (alistGet l "title").isNone then some "Form schema missing 'title' field"
    else
      match alistGet l "fields" with
      | none => some "Form schema missing 'fields' array"
      | some (.arr fields) => fieldFirstFailure fields 0
      | some _ => some "'fields' must be an array"
  | _ => some "Form schema must be a dictionary"

/-- Claim C8 formalised: the checks run in the stated order, the first
failure wins and is reported, and the result is (true, none) exactly when
no check fails. -/
def validateSpecC8 (v : Json) : Bool × Option String :=
  match firstFailureC8 v with
  | some m => (false, some m)
  | none => (true, none)

/-- Concrete input for C1: strict JSON, mode question, the nested question
object lacks the required key type. -/
def exQMissingType : String :=
  "\x7b\"mode\":\"question\",\"question\":\x7b\"id\":\"a\",\"label\":\"b\"\x7d\x7d"

/-- Decoded value of `exQMissingType`. -/
def exQMissingTypeVal : List (String × Json) :=
  [("mode", Json.str "question"),
   ("question", Json.obj [("id", Json.str "a"), ("label", Json.str "b")])]

/-- Concrete well-formed form_schema document for C2, holding two complete
fields a and b. -/
def exC2Full : String :=
  "\x7b\"mode\":\"form_schema\",\"form\":\x7b\"title\":\"T\",\"fields\":" ++
  "[\x7b\"id\":\"a\",\"type\":\"text\",\"label\":\"A\"\x7d," ++
  "\x7b\"id\":\"b\",\"type\":\"text\",\"label\":\"B\"\x7d]\x7d\x7d"

/-- Truncated prefix of `exC2Full`, cut inside the second field; the first
field closes before the cut. -/
def exC2Prefix : String :=
  "\x7b\"mode\":\"form_schema\",\"form\":\x7b\"title\":\"T\",\"fields\":" ++
  "[\x7b\"id\":\"a\",\"type\":\"text\",\"label\":\"A\"\x7d," ++
  "\x7b\"id\":\"b\",\"ty"

/-- The complete first field as it appears, brace to brace, inside
`exC2Prefix`. -/
def exC2FieldA : String :=
  "\x7b\"id\":\"a\",\"type\":\"text\",\"label\":\"A\"\x7d"

/-- Strict decode of `exC2Full`. -/
def exC2FullVal : Json :=
  Json.obj
    [("mode", Json.str "form_schema"),
     ("form", Json.obj
       [("title", Json.str "T"),
        ("fields", Json.arr
          [Json.obj [("id", Json.str "a"), ("type", Json.str "text"),
            ("label", Json.str "A")],
           Json.obj [("id", Json.str "b"), ("type", Json.str "text"),
            ("label", Json.str "B")]])])]

/-- Concrete input for C5: strict JSON, mode form_schema, a truthy nested
form that the Schema Validator rejects (no fields entry). -/
def exC5Input : String :=
  "\x7b\"mode\":\"form_schema\",\"form\":\x7b\"title\":\"T\"\x7d\x7d"

/-- Decoded members of `exC5Input`. -/
def exC5Val : List (String × Json) :=
  [("mode", Json.str "form_schema"),
   ("form", Json.obj [("title", Json.str "T")])]

/-- The nested form of `exC5Input`. -/
def exC5Form : Json := Json.obj [("title", Json.str "T")]

/-- A question object as the parser returns one. -/
def exQuestion : Json :=
  Json.obj [("id", Json.str "q1"), ("label", Json.str "Name?"),
    ("type", Json.str "text")]

/-- A form object that passes the Schema Validator. -/
def exForm : Json :=
  Json.obj [("title", Json.str "T"), ("fields", Json.arr [])]

/-- A fresh session. -/
def exSessionInit : FormSession := mkFormSession "s" "t" "p" 0

/-- The session after one question was applied (stage QUESTION, the
question stored). -/
def exSessionAsk : FormSession := applyQuestion exSessionInit exQuestion 1

/-- A session whose expiry instant 24 lies before the probing clock 30. -/
def exSessionExpired : FormSession := mkFormSession "s1" "t" "p" 0

/-- A store holding exactly the expired session. -/
def exMgrOne : SessionManager := ⟨[("s1", exSessionExpired)]⟩

/-- A session that already carries a persisted-artifact identifier. -/
def exSessionSaved : FormSession :=
  { exSessionAsk with form_id := some "f1", generated_bg := none }

/-- The unbalanced string on which the frozen claim C6 and the code
disagree: its only quote-comma pair starts at index zero. -/
def exC6Input : String := "\",\x7b"

theorem str_append_empty (s : String) : s ++ "" = s := by
  cases s with
  | mk data => show String.mk (data ++ []) = String.mk data; rw [List.append_nil]

theorem alistGet_delKey {α : Type} (l : List (String × α)) (k : String) :
    alistGet (delKey l k) k = none := by
  induction l with
  | nil => rfl
  | cons p t ih =>
    obtain ⟨k0, v0⟩ := p
    by_cases h : k0 = k
    · simpa [delKey, h] using ih
    · simpa [delKey, alistGet, h] using ih

theorem delKey_not_mem {α : Type} (l : List (String × α)) (k : String)
    (h : k ∉ l.map Prod.fst) : delKey l k = l := by
  induction l with
  | nil => rfl
  | cons p t ih =>
    obtain ⟨k0, v0⟩ := p
    simp only [List.map_cons, List.mem_cons] at h
    push_neg at h
    have h1 : delKey ((k0, v0) :: t) k = (k0, v0) :: delKey t k := by
      simp [delKey, Ne.symm h.1]
    rw [h1, ih h.2]

theorem delKey_length {α : Type} (l : List (String × α)) (k : String) (v : α)
    (hm : alistGet l k = some v) (hnd : (l.map Prod.fst).Nodup) :
    (delKey l k).length + 1 = l.length := by
  induction l with
  | nil => simp [alistGet] at hm
  | cons p t ih =>
    obtain ⟨k0, v0⟩ := p
    simp only [List.map_cons, List.nodup_cons] at hnd
    by_cases h : k0 = k
    · subst h
      have : delKey ((k0, v0) :: t) k0 = delKey t k0 := by simp [delKey]
      rw [this, delKey_not_mem t k0 hnd.1]
      simp
    · simp only [alistGet, if_neg h] at hm
      have : delKey ((k0, v0) :: t) k = (k0, v0) :: delKey t k := by
        simp [delKey, h]
      rw [this]
      simp only [List.length_cons]
      have := ih hm hnd.2
      omega

/-- C10 (amended): every call to set_questions or set_final_form raises
AttributeError, because SessionStage.QUESTIONS and SessionStage.FINAL_FORM
do not exist, and the stage is never updated; however the assignment
preceding the enum reference does execute, so set_questions updates
current_questions and set_final_form updates final_form before raising. -/
theorem C10_setters_mutate_then_raise (s : FormSession) (qs : List Json)
    (fs : Json) (now : Nat) :
    s.set_questions qs now =
      ({ s with current_questions := qs }, some PyExn.attributeError) ∧
    s.set_final_form fs now =
      ({ s with final_form := some fs }, some PyExn.attributeError) :=
  ⟨rfl, rfl⟩

/-- C10 counterexample to the frozen claim: the claim states the two
methods can never update current_questions or final_form, but a concrete
call updates both before the AttributeError is raised. -/
theorem C10_counterexample :
    exSessionInit.current_questions = [] ∧
    (exSessionInit.set_questions [exQuestion] 1).1.current_questions =
      [exQuestion] ∧
    (exSessionInit.set_questions [exQuestion] 1).2 =
      some PyExn.attributeError ∧
    (exSessionInit.set_final_form exForm 1).1.final_form = some exForm ∧
    (exSessionInit.set_final_form exForm 1).2 = some PyExn.attributeError :=
  ⟨rfl, rfl, rfl, rfl, rfl⟩

/-- C4 (amended): applying a FormSchema parse result to a session does not
clear current_question; the field keeps its previous value through the
transition, so current_question can be non-empty while the stage is
FORM_SCHEMA and the claimed iff-invariant fails. -/
theorem C4_current_question_not_cleared (sess : FormSession) (form : Json)
    (nid : String) (bg : Option String) (now : Nat) :
    (applyFormSchema sess form nid bg now).session.current_question =
      sess.current_question := by
  cases hv : (validate_form_schema form).1 <;>
    cases hf : formIdFalsy sess.form_id <;>
      simp [applyFormSchema, hv, hf]

/-- C4 counterexample to the frozen claim: a session in the question stage
holds a question; applying a valid FormSchema moves it to the FORM_SCHEMA
stage with current_question still set, contradicting that the transition
clears it and that current_question is non-empty exactly in the question
stage. -/
theorem C4_counterexample :
    exSessionAsk.current_stage = SessionStage.question ∧
    exSessionAsk.current_question = some exQuestion ∧
    (applyFormSchema exSessionAsk exForm "f1" none 2).session.current_stage =
      SessionStage.form_schema ∧
    (applyFormSchema exSessionAsk exForm "f1" none 2).session.current_question =
      some exQuestion :=
  ⟨rfl, rfl, rfl, rfl⟩

/-- C3: when a session already carries a persisted-artifact identifier
(a non-empty form_id), applying a valid FormSchema does not invoke the
persistence collaborator again: no payload is handed over, the stored
identifier is kept and the response reuses it. -/
theorem C3_no_repersist (sess : FormSession) (form : Json) (nid : String)
    (bg : Option String) (now : Nat) (fid : String)
    (hv : (validate_form_schema form).1 = true)
    (hfid : sess.form_id = some fid) (hne : fid ≠ "") :
    (applyFormSchema sess form nid bg now).savedPayload = none ∧
    (applyFormSchema sess form nid bg now).session.form_id = some fid ∧
    ∃ rf, (applyFormSchema sess form nid bg now).response =
      RespOut.formResp rf fid := by
  unfold applyFormSchema
  simp only [hv, hfid, Bool.not_true, Bool.false_eq_true, if_false,
    formIdFalsy, hne, decide_eq_true_eq]
  simp [formIdFalsy, hne]

/-- Witness for C3 at a concrete session that already saved form f1. -/
theorem C3_no_repersist_witness :
    (applyFormSchema exSessionSaved exForm "f2" none 3).savedPayload = none ∧
    (applyFormSchema exSessionSaved exForm "f2" none 3).session.form_id =
      some "f1" ∧
    ∃ rf, (applyFormSchema exSessionSaved exForm "f2" none 3).response =
      RespOut.formResp rf "f1" :=
  C3_no_repersist exSessionSaved exForm "f2" none 3 "f1" rfl rfl (by decide)

/-- C9 (amended): a stored session whose expiry lies strictly before the
probing instant is reported absent by get_session, which never raises and
deletes the entry, so after that access the session no longer contributes
to the count and is no longer stored; however count and the listing do
not themselves filter expired entries, so before the discovering access
an expired session still contributes to every bulk read. -/
theorem C9_expired_get_evicts (m : SessionManager) (sid : String)
    (sess : FormSession) (now : Nat)
    (hl : alistGet m.sessions sid = some sess)
    (hx : sess.is_expired now = true)
    (hnd : (m.sessions.map Prod.fst).Nodup) :
    (m.get_session sid now).1 = none ∧
    ((m.get_session sid now).2).get_session_count + 1 = m.get_session_count ∧
    alistGet ((m.get_session sid now).2).sessions sid = none := by
  have hg : m.get_session sid now = (none, ⟨delKey m.sessions sid⟩) := by
    simp [SessionManager.get_session, hl, hx]
  rw [hg]
  exact ⟨rfl, delKey_length m.sessions sid sess hl hnd,
    alistGet_delKey m.sessions sid⟩

/-- Witness for C9 at a store holding one expired session. -/
theorem C9_expired_get_evicts_witness :
    (exMgrOne.get_session "s1" 30).1 = none ∧
    ((exMgrOne.get_session "s1" 30).2).get_session_count + 1 =
      exMgrOne.get_session_count ∧
    alistGet ((exMgrOne.get_session "s1" 30).2).sessions "s1" = none :=
  C9_expired_get_evicts exMgrOne "s1" exSessionExpired 30 rfl (by decide)
    (by simp [exMgrOne])

/-- C9 counterexample to the frozen claim: before any discovering access,
an expired session is still visible to the bulk read operations — it
contributes to get_session_count and to get_all_sessions — so it is not
treated as nonexistent by every read operation. -/
theorem C9_counterexample :
    exSessionExpired.is_expired 30 = true ∧
    exMgrOne.get_session_count = 1 ∧
    (exMgrOne.get_all_sessions).length = 1 ∧
    (exMgrOne.get_session "s1" 30).2.get_session_count = 0 :=
  ⟨rfl, rfl, rfl, rfl⟩

theorem intAppendEq (r : String) (o c : Nat) (ch : Char) :
    (if ((c : Int) - (o : Int)) < 0 then
       r ++ String.mk (List.replicate ((c : Int) - (o : Int)).natAbs ch)
     else r) = r ++ String.mk (List.replicate (o - c) ch) := by
  by_cases h : c < o
  · have h1 : ((c : Int) - (o : Int)) < 0 := by omega
    have h2 : ((c : Int) - (o : Int)).natAbs = o - c := by omega
    rw [if_pos h1, h2]
  · have h1 : ¬ ((c : Int) - (o : Int)) < 0 := by omega
    have h2 : o - c = 0 := by omega
    rw [if_neg h1, h2]
    show r = r ++ ""
    rw [str_append_empty]

/-- C6 (amended): repair_truncated_json is the identity on every string
with balanced brace and bracket counts; on every unbalanced string it
trims trailing whitespace, drops one trailing comma, resolves an odd
double-quote count by truncating back to the last complete quote-comma
pair when that pair starts at a strictly positive index (a pair at index
zero is treated like an absent pair: a closing quote is appended), and
then appends exactly the deficit of closing brackets followed by exactly
the deficit of closing braces. -/
theorem C6_repair_characterisation (s : String) :
    repair_truncated_json s = repairAmendedC6 s := by
  unfold repair_truncated_json repairAmendedC6
  by_cases hb : charCount s '{' = charCount s '}' ∧
      charCount s '[' = charCount s ']'
  · rw [if_pos hb, if_pos hb]
  · rw [if_neg hb, if_neg hb]
    simp only [intAppendEq]

/-- C6 counterexample to the frozen claim: on the unbalanced input whose
only quote-comma pair starts at index zero, the code appends a quote and
the missing brace, while the claim as stated truncates back to the pair;
the two results differ. -/
theorem C6_counterexample :
    repair_truncated_json exC6Input = "\",\x7b\"\x7d" ∧
    repairClaimC6 exC6Input = "\",\x7d" ∧
    repair_truncated_json exC6Input ≠ repairClaimC6 exC6Input :=
  ⟨rfl, rfl, by decide⟩

theorem validateFields_eq (fields : List Json) (i : Nat) :
    validateFields fields i =
      (match fieldFirstFailure fields i with
       | some m => (false, some m)
       | none => (true, none)) := by
  induction fields generalizing i with
  | nil => rfl
  | cons f rest ih =>
    cases f with
    | obj fl =>
      by_cases h1 : (alistGet fl "id").isNone
      · simp [validateFields, fieldFirstFailure, h1]
      · by_cases h2 : (alistGet fl "type").isNone
        · simp [validateFields, fieldFirstFailure, h1, h2]
        · by_cases h3 : (alistGet fl "label").isNone
          · simp [validateFields, fieldFirstFailure, h1, h2, h3]
          · simp [validateFields, fieldFirstFailure, h1, h2, h3, ih]
    | null => rfl
    | bool b => rfl
    | num lx => rfl
    | str st => rfl
    | arr el => rfl

/-- C8: validate_form_schema checks its rules in the claimed fixed order
and returns on the first failure with the claimed message for the first
offending index, and it yields (true, none) exactly when every check
passes: it coincides with the rule list of the claim, formalised as
validateSpecC8 (a pure function, so there are no side effects). -/
theorem C8_validator_matches_spec (v : Json) :
    validate_form_schema v = validateSpecC8 v := by
  cases v with
  | obj l =>
    by_cases ht : (alistGet l "title").isNone
    · simp [validate_form_schema, validateSpecC8, firstFailureC8, ht]
    · cases hf : alistGet l "fields" with
      | none =>
        simp [validate_form_schema, validateSpecC8, firstFailureC8, ht, hf]
      | some fv =>
        cases fv <;>
          simp [validate_form_schema, validateSpecC8, firstFailureC8, ht, hf,
            validateFields_eq]
  | null => rfl
  | bool b => rfl
  | num lx => rfl
  | str st => rfl
  | arr el => rfl

theorem jsonIsStr_eq (o : Option Json) (t : String) :
    jsonIsStr o t = true ↔ o = some (Json.str t) := by
  cases o with
  | none => simp [jsonIsStr]
  | some v => cases v <;> simp [jsonIsStr]

theorem legacyBranch_ret (l : List (String × Json)) :
    runPy (legacyBranch (Json.obj l) (alistGet l "mode")) =
      POut.ret (legacyRewrite (Json.obj l)) := by
  cases hm : alistGet l "mode" with
  | none => simp [legacyBranch, legacyRewrite, runPy, jGet, hm, jsonIsStr]
  | some m =>
    by_cases hq : jsonIsStr (some m) "questions" = true
    · simp [legacyBranch, legacyRewrite, runPy, jGet, hm, hq]
    · by_cases hf : jsonIsStr (some m) "final_form" = true
      · simp [legacyBranch, legacyRewrite, runPy, jGet, hm, hq, hf]
      · simp [legacyBranch, legacyRewrite, runPy, jGet, hm, hq, hf]

/-- C7 (amended): when the strict decode yields an object whose mode is
absent or not the string question or form_schema, parse_llm_response does
NOT fall through to Stage 2: it accepts the decoded object and returns it,
with only the legacy aliases questions and final_form rewritten in the
mode field (no question or form validation is applied on this path). -/
theorem C7_unrecognized_mode_accepted (s : String) (l : List (String × Json))
    (_hfence : hasFence s = false)
    (hp : jsonParse s = some (Json.obj l))
    (hm1 : alistGet l "mode" ≠ some (Json.str "question"))
    (hm2 : alistGet l "mode" ≠ some (Json.str "form_schema")) :
    parse_llm_response s = POut.ret (legacyRewrite (Json.obj l)) := by
  have h1 : jsonIsStr (alistGet l "mode") "question" = false := by
    cases hj : jsonIsStr (alistGet l "mode") "question"
    · rfl
    · exact absurd ((jsonIsStr_eq _ _).mp hj) hm1
  have h2 : jsonIsStr (alistGet l "mode") "form_schema" = false := by
    cases hj : jsonIsStr (alistGet l "mode") "form_schema"
    · rfl
    · exact absurd ((jsonIsStr_eq _ _).mp hj) hm2
  have h3 : stage1Branch (Json.obj l) =
      legacyBranch (Json.obj l) (alistGet l "mode") := by
    simp [stage1Branch, pyDictGet, h1, h2]
  simp only [parse_llm_response, hp, h3, legacyBranch_ret]

/-- Witness for C7 at a concrete object with an unrecognized mode. -/
theorem C7_unrecognized_mode_accepted_witness :
    parse_llm_response "\x7b\"mode\":\"weird\"\x7d" =
      POut.ret (legacyRewrite (Json.obj [("mode", Json.str "weird")])) :=
  C7_unrecognized_mode_accepted "\x7b\"mode\":\"weird\"\x7d"
    [("mode", Json.str "weird")] rfl rfl
    (by simp [alistGet]) (by simp [alistGet])

/-- C7 counterexample to the frozen claim: an unrecognized mode is not
recovered through Stage 2 — the decoded object itself is returned — and
the legacy alias questions is not treated exactly as mode question: the
object is returned with the mode renamed even though it has no question
member at all (mode question with no question member raises instead). -/
theorem C7_counterexample :
    parse_llm_response "\x7b\"mode\":\"weird\"\x7d" =
      POut.ret (Json.obj [("mode", Json.str "weird")]) ∧
    parse_llm_response "\x7b\"mode\":\"questions\"\x7d" =
      POut.ret (Json.obj [("mode", Json.str "question")]) ∧
    parse_llm_response "\x7b\"mode\":\"question\"\x7d" =
      POut.exn (PyExn.valueError "Missing question in response") :=
  ⟨rfl, rfl, rfl⟩

theorem parse_question_mode (s : String) (l : List (String × Json))
    (hp : jsonParse s = some (Json.obj l))
    (hm : alistGet l "mode" = some (Json.str "question")) :
    parse_llm_response s = runPy (questionBranch (Json.obj l)) := by
  simp [parse_llm_response, hp, stage1Branch, pyDictGet, hm, jsonIsStr]

/-- C1 (amended): for an input that strictly decodes as an object with
mode question whose nested question object is missing one of the required
keys id, label, type, or carries type radio or checkbox with a missing,
falsy, non-list or empty options entry, parse_llm_response raises a
ValueError to its caller: the failure does NOT fall through to the
recovery stages (the surrounding except clause only catches
JSONDecodeError). -/
theorem C1_question_failure_raises (s : String) (l ql : List (String × Json))
    (_hfence : hasFence s = false)
    (hp : jsonParse s = some (Json.obj l))
    (hm : alistGet l "mode" = some (Json.str "question"))
    (hq : alistGet l "question" = some (Json.obj ql))
    (hbad :
      (alistGet ql "id" = none ∨ alistGet ql "label" = none ∨
        alistGet ql "type" = none) ∨
      (∃ t, alistGet ql "type" = some (Json.str t) ∧
        (t = "radio" ∨ t = "checkbox") ∧ badOptions ql = true)) :
    ∃ m, parse_llm_response s = POut.exn (PyExn.valueError m) := by
  rw [parse_question_mode s l hp hm]
  by_cases hql : ql.isEmpty = true
  · exact ⟨"Missing question in response",
      by simp [questionBranch, pyDictGet, hq, isFalsy, hql, runPy]⟩
  · cases hid : alistGet ql "id" with
    | none =>
      exact ⟨"Missing id in question",
        by simp [questionBranch, pyDictGet, pyContains, hq, isFalsy, hql,
          hid, runPy]⟩
    | some vi =>
      cases hlab : alistGet ql "label" with
      | none =>
        exact ⟨"Missing label in question",
          by simp [questionBranch, pyDictGet, pyContains, hq, isFalsy, hql,
            hid, hlab, runPy]⟩
      | some vl =>
        cases hty : alistGet ql "type" with
        | none =>
          exact ⟨"Missing type in question",
            by simp [questionBranch, pyDictGet, pyContains, hq, isFalsy, hql,
              hid, hlab, hty, runPy]⟩
        | some vt =>
          rcases hbad with hkeys | ⟨t, ht, htr, hbo⟩
          · rcases hkeys with h | h | h
            · exact absurd h (by simp [hid])
            · exact absurd h (by simp [hlab])
            · exact absurd h (by simp [hty])
          · rw [ht] at hty
            injection hty with hvt
            rw [badOptions] at hbo
            have hqlf : isFalsy (Json.obj ql) = false := by
              simpa [isFalsy] using hql
            cases ho : alistGet ql "options" with
            | none =>
              refine ⟨t ++ " must have options", ?_⟩
              rcases htr with rfl | rfl <;>
                simp [questionBranch, pyDictGet, pyContains, pySubscr, hq,
                  hqlf, hid, hlab, ht, ho, isFalsyOpt, jsonIsStr, runPy]
            | some o =>
              cases hfo : isFalsy o with
              | true =>
                refine ⟨t ++ " must have options", ?_⟩
                rcases htr with rfl | rfl <;>
                  simp [questionBranch, pyDictGet, pyContains, pySubscr, hq,
                    hqlf, hid, hlab, ht, ho, isFalsyOpt, hfo, jsonIsStr,
                    runPy]
              | false =>
                rw [ho] at hbo
                simp only [hfo, Bool.false_eq_true, if_false] at hbo
                cases o with
                | arr la =>
                  exfalso
                  have hla : la.isEmpty = true := hbo
                  have h2 : isFalsy (Json.arr la) = true := by
                    simp [isFalsy, hla]
                  rw [h2] at hfo
                  exact Bool.noConfusion hfo
                | null =>
                  refine ⟨t ++ " must have non-empty options list", ?_⟩
                  rcases htr with rfl | rfl <;>
                    simp [questionBranch, pyDictGet, pyContains, pySubscr, hq,
                      hqlf, hid, hlab, ht, ho, isFalsyOpt, hfo, jsonIsStr,
                      runPy]
                | bool b =>
                  refine ⟨t ++ " must have non-empty options list", ?_⟩
                  rcases htr with rfl | rfl <;>
                    simp [questionBranch, pyDictGet, pyContains, pySubscr, hq,
                      hqlf, hid, hlab, ht, ho, isFalsyOpt, hfo, jsonIsStr,
                      runPy]
                | num lx =>
                  refine ⟨t ++ " must have non-empty options list", ?_⟩
                  rcases htr with rfl | rfl <;>
                    simp [questionBranch, pyDictGet, pyContains, pySubscr, hq,
                      hqlf, hid, hlab, ht, ho, isFalsyOpt, hfo, jsonIsStr,
                      runPy]
                | str st =>
                  refine ⟨t ++ " must have non-empty options list", ?_⟩
                  rcases htr with rfl | rfl <;>
                    simp [questionBranch, pyDictGet, pyContains, pySubscr, hq,
                      hqlf, hid, hlab, ht, ho, isFalsyOpt, hfo, jsonIsStr,
                      runPy]
                | obj ol =>
                  refine ⟨t ++ " must have non-empty options list", ?_⟩
                  rcases htr with rfl | rfl <;>
                    simp [questionBranch, pyDictGet, pyContains, pySubscr, hq,
                      hqlf, hid, hlab, ht, ho, isFalsyOpt, hfo, jsonIsStr,
                      runPy]

/-- Witness for C1 at the concrete input whose question lacks type. -/
theorem C1_question_failure_raises_witness :
    ∃ m, parse_llm_response exQMissingType = POut.exn (PyExn.valueError m) :=
  C1_question_failure_raises exQMissingType exQMissingTypeVal
    [("id", Json.str "a"), ("label", Json.str "b")] rfl rfl rfl rfl
    (Or.inl (Or.inr (Or.inr rfl)))

/-- C1 counterexample to the frozen claim: the claim states the parser
never raises here and instead falls through to recovery with a tagged
result; on this input (strict JSON, mode question, type missing) the call
raises ValueError to its caller. -/
theorem C1_counterexample :
    jsonParse exQMissingType = some (Json.obj exQMissingTypeVal) ∧
    parse_llm_response exQMissingType =
      POut.exn (PyExn.valueError "Missing type in question") :=
  ⟨rfl, rfl⟩

/-- C5: for an input whose strict decode succeeds with mode form_schema
and a truthy nested form, Stage 1 returns the decoded object, and the
orchestrator step that applies it runs the Schema Validator before
accepting: a validator rejection yields the tagged error response (no
persistence, session untouched), and an accepted form response can only
arise when the validator passed. -/
theorem C5_validator_gates_acceptance (s : String) (l : List (String × Json))
    (f : Json) (sess : FormSession) (nid : String) (bg : Option String)
    (now : Nat)
    (_hfence : hasFence s = false)
    (hp : jsonParse s = some (Json.obj l))
    (hm : alistGet l "mode" = some (Json.str "form_schema"))
    (hf : alistGet l "form" = some f)
    (ht : isFalsy f = false) :
    parse_llm_response s = POut.ret (Json.obj l) ∧
    (∀ m, validate_form_schema f = (false, some m) →
      (applyFormSchema sess f nid bg now).response =
        RespOut.errorResp ("Form validation failed: " ++ m) ∧
      (applyFormSchema sess f nid bg now).savedPayload = none ∧
      (applyFormSchema sess f nid bg now).session = sess) ∧
    (∀ rf fid, (applyFormSchema sess f nid bg now).response =
        RespOut.formResp rf fid →
      (validate_form_schema f).1 = true) := by
  refine ⟨?_, ?_, ?_⟩
  · simp [parse_llm_response, hp, stage1Branch, formSchemaBranch, pyDictGet,
      hm, hf, jsonIsStr, isFalsyOpt, ht, runPy]
  · intro m hv
    simp [applyFormSchema, hv]
  · intro rf fid hresp
    cases hv : (validate_form_schema f).1 with
    | true => rfl
    | false =>
      exfalso
      rw [applyFormSchema] at hresp
      simp only [hv, Bool.not_false, if_true] at hresp
      exact RespOut.noConfusion hresp

/-- Witness for C5 at a concrete form_schema input whose nested form lacks
the fields entry, so the validator rejects it. -/
theorem C5_validator_gates_acceptance_witness :
    parse_llm_response exC5Input = POut.ret (Json.obj exC5Val) ∧
    (applyFormSchema exSessionAsk exC5Form "nid" none 5).response =
      RespOut.errorResp
        ("Form validation failed: " ++ "Form schema missing 'fields' array") ∧
    (applyFormSchema exSessionAsk exC5Form "nid" none 5).savedPayload =
      none :=
  have h := C5_validator_gates_acceptance exC5Input exC5Val exC5Form
    exSessionAsk "nid" none 5 rfl rfl rfl rfl rfl
  ⟨h.1, (h.2.1 "Form schema missing 'fields' array" rfl).1,
    (h.2.1 "Form schema missing 'fields' array" rfl).2.1⟩

/-- C2 (amended): truncating a well-formed form_schema document generally
does NOT round-trip through Stages 2 and 3. Whenever the truncated prefix
fails the strict decode, the Stage 2 repaired text also fails to decode,
and the prefix contains the mode marker without the final_form or
questions markers while the form indicators do not outscore the question
indicators by more than two, is_final_form gates Stage 3 off and
parse_llm_response returns the tagged error result: no field is
recovered, not even one whose closing brace lies before the truncation
point. -/
theorem C2_truncation_error_path (s : String)
    (_hfence : hasFence s = false)
    (h1 : jsonParse s = none)
    (h2 : jsonParse (repair_truncated_json s) = none)
    (hm : pyInStr s "\"mode\"" = true)
    (hff : pyInStr s "\"final_form\"" = false)
    (hqq : pyInStr s "\"questions\"" = false)
    (hsc : form_score s ≤ question_score s + 2) :
    parse_llm_response s = POut.ret (errorResult s) := by
  have hiff : is_final_form s = false := by
    simp [is_final_form, hm, hff, hqq]
    omega
  simp [parse_llm_response, h1, h2, stage3Check, hiff, runPy]

set_option maxRecDepth 8000 in
/-- Witness for C2 at the truncated prefix of the two-field document. -/
theorem C2_truncation_error_path_witness :
    parse_llm_response exC2Prefix = POut.ret (errorResult exC2Prefix) :=
  C2_truncation_error_path exC2Prefix rfl rfl rfl rfl rfl rfl (by decide)

set_option maxRecDepth 8000 in
/-- C2 counterexample to the frozen claim: the prefix is a byte-level
truncation of the well-formed document whose first field closes before
the cut (the complete field object occurs inside the prefix), yet the
pipeline yields the tagged error result instead of a form_schema result
containing that field. -/
theorem C2_counterexample :
    listHasPrefix exC2Prefix.data exC2Full.data = true ∧
    pyInStr exC2Prefix exC2FieldA = true ∧
    jsonParse exC2Full = some exC2FullVal ∧
    resultMode (parse_llm_response exC2Prefix) = some "error" :=
  ⟨rfl, rfl, rfl, rfl⟩
